import Mathlib

/-!
Verification of the SwingTrade scanning / ranking / exit-evaluation core.

The definitions below are a shallow embedding of the Python sources:

* `SimpleExitRules.calculate_exits`  — src/src/exit_rules.py
* `alertEvaluate`                    — the per-position classification in
                                       `main` of src/alert.py (lines 143-188)
* `rollingMean`, `rollingMeanOpt`    — pandas `Series.rolling(w).mean()` with
                                       the default `min_periods = w`: the value
                                       at row i is defined only when the
                                       trailing window of w rows exists and all
                                       of its values are present, else missing
* `PullbackUptrendSetup.prepare`     — src/src/setup_rules.py `prepare`
* `PullbackUptrendSetup.apply`       — src/src/setup_rules.py `apply`; pandas
                                       comparisons against NaN yield False, so
                                       every comparison whose operand is
                                       missing is embedded as `false`
* `SetupScanner.market_ok`           — src/src/scanner.py `market_ok`
* `SetupScanner.scan` and helpers    — src/src/scanner.py `scan`
* `calculate_relative_strength`      — src/src/ranking.py

Prices and volumes are embedded as rationals, dates as naturals (any strictly
increasing encoding of calendar days), a raised Python exception as the
`Except.error` case, and a missing (NaN) value as `Option.none`.  A market-data
download is abstracted as a function `String → Except String (List Bar)`:
`Except.error` models a raised provider exception, `.ok []` models the empty
frame that `SetupScanner._download` returns for empty or malformed data.  The
sort performed by `DataFrame.sort_values` on the two columns
`["has_signal_today", "signals_in_lookback"]` (both descending) is the pandas
`lexsort_indexer`, i.e. `numpy.lexsort`, a stable sort by the descending
lexicographic key; it is embedded as `List.insertionSort` with that key, which
computes exactly the unique stable sort for the key.
-/

/-- One daily bar after `SetupScanner._download` (which drops incomplete rows):
date, close and volume are all present.  Open/high/low are downloaded but never
read by the scanned code paths, so they are omitted. -/
structure Bar where
  date : Nat
  close : ℚ
  volume : ℚ
deriving Repr, DecidableEq

/-- A bar augmented by `PullbackUptrendSetup.prepare` with the rolling
statistics; a rolling value is `none` where pandas would hold NaN. -/
structure IndBar where
  date : Nat
  close : ℚ
  volume : ℚ
  sma20 : Option ℚ
  sma50 : Option ℚ
  volsma20 : Option ℚ
deriving Repr, DecidableEq

/-- One row of the DataFrame built in `SetupScanner.scan`. -/
structure SignalRow where
  ticker : String
  has_signal_today : Bool
  last_date : Nat
  most_recent_signal_date : Option Nat
  signals_in_lookback : Nat
deriving Repr, DecidableEq

/-- The configuration of `SimpleExitRules.__init__`. -/
structure SimpleExitRules where
  stop_loss_pct : ℚ
  profit_target_pct : ℚ
  max_hold_days : ℤ
deriving Repr, DecidableEq

/-- The classification a position can receive. -/
inductive ExitStatus where
  | STOP_HIT
  | TARGET_HIT
  | TIME_STOP
  | HEALTHY
deriving Repr, DecidableEq

/-- Function `SimpleExitRules.calculate_exits`: stop level, target level and the
configured maximum hold, from src/src/exit_rules.py. -/
def SimpleExitRules.calculate_exits (rules : SimpleExitRules) (entry_price : ℚ) :
    ℚ × ℚ × ℤ :=
  (entry_price * (1 - rules.stop_loss_pct),
   entry_price * (1 + rules.profit_target_pct),
   rules.max_hold_days)

/-- The classification performed by `main` in src/alert.py for a position with
a known entry price: `latest_close <= stop` gives a stop alert, otherwise
`latest_close >= target` gives a target alert, otherwise the position is
tracked as healthy.  `days_held` is computed by the surrounding code but only
annotates the printed messages; no branch of the classification reads it, so
the code never produces a time-stop classification. -/
def alertEvaluate (rules : SimpleExitRules) (entry latest : ℚ)
    (days_held : Option ℤ) : ExitStatus :=
  let exits := rules.calculate_exits entry
  let _ := days_held
  if latest ≤ exits.1 then .STOP_HIT
  else if exits.2.1 ≤ latest then .TARGET_HIT
  else .HEALTHY

/-- Modelled from the spec: the Exit Evaluator classification of §4.6,
including the time-stop branch that the spec places after the stop and target
checks (`days_held >= max_hold_days → TIME_STOP`, only when the entry date is
known).  No function in the repository implements this branch. -/
def exitEvaluateSpec (rules : SimpleExitRules) (entry latest : ℚ)
    (days_held : Option ℤ) : ExitStatus :=
  let stop := entry * (1 - rules.stop_loss_pct)
  let target := entry * (1 + rules.profit_target_pct)
  if latest ≤ stop then .STOP_HIT
  else if target ≤ latest then .TARGET_HIT
  else
    match days_held with
    | some d => if rules.max_hold_days ≤ d then .TIME_STOP else .HEALTHY
    | none => .HEALTHY

/-- pandas `Series.rolling(w).mean()` over a column without missing values,
evaluated at row `i`: the trailing window is the up-to-`w` rows ending at `i`,
and with the default `min_periods = w` the result is NaN (here `none`) unless
the window holds `w` rows. -/
def rollingMean (w : Nat) (xs : List ℚ) (i : Nat) : Option ℚ :=
  let win := (xs.take (i + 1)).drop (i + 1 - w)
  if win.length < w then none else some (win.sum / (w : ℚ))

/-- Method `PullbackUptrendSetup.prepare`: attach SMA20 and SMA50 of the close and the
20-bar moving average of the volume to every bar. -/
def PullbackUptrendSetup.prepare (bars : List Bar) : List IndBar :=
  let closes := bars.map (·.close)
  let vols := bars.map (·.volume)
  bars.mapIdx fun i b =>
    { date := b.date, close := b.close, volume := b.volume,
      sma20 := rollingMean 20 closes i,
      sma50 := rollingMean 50 closes i,
      volsma20 := rollingMean 20 vols i }

/-- pandas elementwise `a < b` on two float columns: False whenever either
side is NaN (missing). -/
def optLt (a b : Option ℚ) : Bool :=
  match a, b with
  | some x, some y => decide (x < y)
  | _, _ => false

/-- pandas elementwise `a <= b`: False whenever either side is NaN. -/
def optLe (a b : Option ℚ) : Bool :=
  match a, b with
  | some x, some y => decide (x ≤ y)
  | _, _ => false

/-- Method `PullbackUptrendSetup.apply`: the boolean signal column.  `shift(1)` at
row 0 yields NaN, embedded as `none`; every pandas comparison with a NaN
operand yields False; the final `fillna(False)` is the identity because the
comparisons have already produced booleans. -/
def PullbackUptrendSetup.apply (pullback_pct : ℚ) (use_volume : Bool)
    (l : List IndBar) : List Bool :=
  l.mapIdx fun i b =>
    let prev : Option IndBar := if i = 0 then none else l[i - 1]?
    let prev_close := prev.map (·.close)
    let prev_sma20 := prev.bind (·.sma20)
    let trend := optLt b.sma50 (some b.close) && optLt b.sma50 b.sma20
    let pullback_near :=
      match prev_close, prev_sma20 with
      | some c, some s => decide (|c - s| / s ≤ pullback_pct)
      | _, _ => false
    let pullback_below_or_at := optLe prev_close prev_sma20
    let pullback_day := pullback_near && pullback_below_or_at
    let reclaim := optLt b.sma20 (some b.close)
    let signal := trend && pullback_day && reclaim
    if use_volume then
      let prev_vol := prev.map (·.volume)
      let prev_vol_sma20 := prev.bind (·.volsma20)
      signal && optLt prev_vol prev_vol_sma20
    else signal

/-- Claim-side Trend(t): close(t) > SMA50(t) and SMA20(t) > SMA50(t);
`none` when an operand is undefined. -/
def trendAt (l : List IndBar) (t : Nat) : Option Bool := do
  let b ← l[t]?
  let s50 ← b.sma50
  let s20 ← b.sma20
  pure (decide (s50 < b.close) && decide (s50 < s20))

/-- Claim-side Pullback(t-1): the previous close sat within the tolerance band
around SMA20(t-1) and at or below it; `none` at the first bar or when
SMA20(t-1) is undefined. -/
def pullbackAt (pct : ℚ) (l : List IndBar) (t : Nat) : Option Bool :=
  if t = 0 then none
  else do
    let p ← l[t - 1]?
    let s ← p.sma20
    pure (decide (|p.close - s| / s ≤ pct) && decide (p.close ≤ s))

/-- Claim-side Reclaim(t): close(t) > SMA20(t). -/
def reclaimAt (l : List IndBar) (t : Nat) : Option Bool := do
  let b ← l[t]?
  let s20 ← b.sma20
  pure (decide (s20 < b.close))

/-- Claim-side Quiet-pullback(t-1): volume(t-1) < VOL_SMA20(t-1). -/
def quietAt (l : List IndBar) (t : Nat) : Option Bool :=
  if t = 0 then none
  else do
    let p ← l[t - 1]?
    let v ← p.volsma20
    pure (decide (p.volume < v))

/-- Claim-side Signal(t): the conjunction of the four conditions, where an
undefined operand makes the conjunction false. -/
def signalSpec (pct : ℚ) (uv : Bool) (l : List IndBar) (t : Nat) : Bool :=
  (trendAt l t == some true) && (pullbackAt pct l t == some true) &&
    (reclaimAt l t == some true) && (!uv || (quietAt l t == some true))

/-- pandas `Series.rolling(w).mean()` over a column that may contain NaN: with
the default `min_periods = w` the value at row `i` is present iff the trailing
window holds `w` rows and every one of them is non-NaN. -/
def rollingMeanOpt (w : Nat) (xs : List (Option ℚ)) (i : Nat) : Option ℚ :=
  let win := (xs.take (i + 1)).drop (i + 1 - w)
  if win.length < w then none
  else
    match win.mapM id with
    | some vs => some (vs.sum / (w : ℚ))
    | none => none

/-- Method `SetupScanner.market_ok`, over the (date, close) column of the frame the
SPY download produced; a close may be NaN.  Mirrors src/src/scanner.py lines
35-56: an empty frame or an all-NaN close column returns the fail-open tuple
`(True, None, None, None)`; otherwise SMA200 is the 200-row rolling mean at
the last row, and ok is `notna(sma200) and close > sma200`, where a comparison
against NaN is False. -/
def SetupScanner.market_ok (spy : List (Nat × Option ℚ)) :
    Bool × Option Nat × Option ℚ × Option ℚ :=
  if spy.isEmpty || spy.all (fun b => b.2.isNone) then (true, none, none, none)
  else
    let sma := rollingMeanOpt 200 (spy.map (·.2)) (spy.length - 1)
    let lastClose := (spy.getLast?).bind (·.2)
    let lastDate := (spy.getLast?).map (·.1)
    let ok : Bool :=
      match sma, lastClose with
      | some s, some c => decide (s < c)
      | _, _ => false
    (ok, lastDate, lastClose, sma)

/-- The body of the ticker loop in `SetupScanner.scan` for one downloaded
frame: `none` models the `continue` taken when the frame is empty or shorter
than 60 rows, `some row` the record appended to `rows`. -/
def processTicker (pullback_pct : ℚ) (use_volume : Bool) (t : String)
    (data : List Bar) : Option SignalRow :=
  if data.isEmpty || data.length < 60 then none
  else
    let ind := PullbackUptrendSetup.prepare data
    let sig := PullbackUptrendSetup.apply pullback_pct use_volume ind
    let dates := data.map (·.date)
    let sigDates := (dates.zip sig).filterMap fun p => if p.2 then some p.1 else none
    some { ticker := t,
           has_signal_today := sig.getLast?.getD false,
           last_date := (dates.getLast?).getD 0,
           most_recent_signal_date := sigDates.getLast?,
           signals_in_lookback := sig.countP id }

/-- The ticker loop of `SetupScanner.scan`.  The loop body has no exception
handler, so a provider error (`Except.error`, modelling a raised exception)
aborts the whole fold and discards every row gathered so far. -/
def scanRows (pullback_pct : ℚ) (use_volume : Bool)
    (provider : String → Except String (List Bar)) :
    List String → Except String (List SignalRow)
  | [] => .ok []
  | t :: ts =>
    match provider t with
    | .error e => .error e
    | .ok data =>
      match scanRows pullback_pct use_volume provider ts with
      | .error e => .error e
      | .ok rest =>
        match processTicker pullback_pct use_volume t data with
        | none => .ok rest
        | some r => .ok (r :: rest)

/-- Python list slicing `l[:m]` with an integer bound: a negative bound counts
from the end. -/
def pySliceTo (l : List String) (m : Int) : List String :=
  if 0 ≤ m then l.take m.toNat else l.take (l.length - (-m).toNat)

/-- Slice `tickers[:max_tickers] if max_tickers else tickers` (scanner.py line 70):
both `None` and `0` are falsy in Python, so both leave the list whole. -/
def tickersToScan (tickers : List String) (max_tickers : Option Int) :
    List String :=
  match max_tickers with
  | none => tickers
  | some m => if m = 0 then tickers else pySliceTo tickers m

/-- The key of the final `sort_values(by=["has_signal_today",
"signals_in_lookback"], ascending=[False, False])`: booleans sort with
True above False. -/
def rowKey (r : SignalRow) : Nat × Nat :=
  (cond r.has_signal_today 1 0, r.signals_in_lookback)

/-- Whether `a` may precede `b` in the descending lexicographic order on `rowKey`. -/
def keyGe (a b : SignalRow) : Bool :=
  decide ((rowKey b).1 < (rowKey a).1 ∨
    ((rowKey b).1 = (rowKey a).1 ∧ (rowKey b).2 ≤ (rowKey a).2))

/-- The sort relation as a decidable total preorder on rows. -/
def rowLE (a b : SignalRow) : Prop := keyGe a b = true

instance : DecidableRel rowLE := fun a b => instDecidableEqBool (keyGe a b) true

instance : IsTrans SignalRow rowLE :=
  ⟨by
    intro a b c hab hbc
    simp only [rowLE, keyGe, decide_eq_true_eq] at hab hbc ⊢
    omega⟩

instance : IsTotal SignalRow rowLE :=
  ⟨by
    intro a b
    simp only [rowLE, keyGe, decide_eq_true_eq]
    omega⟩

/-- The constructor parameters of `SetupScanner` (the `lookback` period string
is only forwarded to the provider and is absorbed into the provider function
here). -/
structure ScanConfig where
  pullback_pct : ℚ
  use_volume : Bool
  require_market_ok : Bool

/-- The market filter at the top of `SetupScanner.scan`: when
`require_market_ok` is set, download SPY through the same `_download` (whose
raised exception propagates) and keep only the `ok` component. -/
def marketGate (cfg : ScanConfig)
    (provider : String → Except String (List Bar)) : Except String Bool :=
  if cfg.require_market_ok then
    match provider "SPY" with
    | .error e => .error e
    | .ok spy =>
      .ok (SetupScanner.market_ok (spy.map fun b => (b.date, some b.close))).1
  else .ok true

/-- Method `SetupScanner.scan` (src/src/scanner.py lines 58-107): the market gate,
the slice of the universe, the ticker loop, and the final two-key descending
sort.  pandas dispatches a multi-column `sort_values` to `lexsort_indexer`
(`numpy.lexsort`), a stable sort by the descending lexicographic key, which is
what `List.insertionSort rowLE` computes. -/
def SetupScanner.scan (cfg : ScanConfig)
    (provider : String → Except String (List Bar)) (tickers : List String)
    (max_tickers : Option Int) : Except String (List SignalRow) :=
  match marketGate cfg provider with
  | .error e => .error e
  | .ok false => .ok []
  | .ok true =>
    match scanRows cfg.pullback_pct cfg.use_volume provider
        (tickersToScan tickers max_tickers) with
    | .error e => .error e
    | .ok rows => .ok (rows.insertionSort rowLE)

/-- Function `calculate_relative_strength` from src/src/ranking.py, over the close
columns of the two downloads.  `Except.error` models a raised download
exception, and the second guard models the IndexError raised by
`spy["Close"].iloc[-lookback_days]` when the SPY history is shorter than the
lookback; the surrounding try/except turns either into 0.0.  The embedding is
faithful for `1 ≤ lookback_days`; the repository only calls the function with
its default of 60. -/
def calculate_relative_strength (stock spy : Except String (List ℚ))
    (lookback_days : Nat) : ℚ :=
  match stock, spy with
  | .ok s, .ok p =>
    if s.isEmpty || p.isEmpty || s.length < lookback_days then 0
    else if p.length < lookback_days then 0
    else
      let stock_return := s.getLast?.getD 0 / s.getD (s.length - lookback_days) 0 - 1
      let spy_return := p.getLast?.getD 0 / p.getD (p.length - lookback_days) 0 - 1
      (stock_return - spy_return) * 100
  | _, _ => 0

/-- Formula of C4 taken literally: each return is
`close[last] / close[last - window] - 1` with `last = length - 1`, the score
is 0.0 whenever a download fails or either series is shorter than the window,
and no error propagates. -/
def relStrengthClaim (stock spy : Except String (List ℚ)) (window : Nat) : ℚ :=
  match stock, spy with
  | .ok s, .ok p =>
    if s.length < window || p.length < window then 0
    else
      let stock_return := s.getLast?.getD 0 / s.getD (s.length - 1 - window) 0 - 1
      let spy_return := p.getLast?.getD 0 / p.getD (p.length - 1 - window) 0 - 1
      (stock_return - spy_return) * 100
  | _, _ => 0

/-- C4 amended: the start of the return window is the close `window` bars back
counting inclusively — Python `iloc[-window]`, i.e. index
`length - window` — rather than the `close[last - window]` of the claim. -/
def relStrengthAmended (stock spy : Except String (List ℚ)) (window : Nat) : ℚ :=
  match stock, spy with
  | .ok s, .ok p =>
    if s.isEmpty || p.isEmpty || s.length < window || p.length < window then 0
    else
      let stock_return := s.getLast?.getD 0 / s.getD (s.length - window) 0 - 1
      let spy_return := p.getLast?.getD 0 / p.getD (p.length - window) 0 - 1
      (stock_return - spy_return) * 100
  | _, _ => 0

/-- Claim-side trailing window mean: the unweighted mean of the entries at
positions `[i-w+1, i]` inclusive, defined exactly when at least `w` entries
exist at or before position `i`. -/
def windowMeanSpec (w : Nat) (xs : List ℚ) (i : Nat) : Option ℚ :=
  if w ≤ i + 1 ∧ i < xs.length then
    some ((((xs.drop (i + 1 - w)).take w).sum) / (w : ℚ))
  else none

/-- A 60-bar series with constant unit close and volume, used to instantiate
the scanner theorems on concrete data. -/
def constBars : List Bar := (List.range 60).map fun i => ⟨i, 1, 1⟩

/-- A provider whose download raises on ticker "A" and returns an empty frame
otherwise. -/
def badProvider : String → Except String (List Bar) := fun t =>
  if t = "A" then .error "boom" else .ok []

/-- 61 stock closes 1, 2, ..., 2, 3: the close read by `iloc[-60]` is 2, the
close 60 positions before the last one is 1. -/
def sC : List ℚ := (1 :: List.replicate 59 2) ++ [3]

/-- 61 constant benchmark closes. -/
def pC : List ℚ := List.replicate 61 1

/-- The record the scanner builds for a ticker whose frame is `constBars`:
the flat series never fires the setup. -/
def wRow (t : String) : SignalRow := ⟨t, false, 59, none, 0⟩

/-- C1: at `entry=100`, `stop_loss=0.02`, `profit_target=0.07`,
`max_hold_days=10`, `latest_close=102`, `days_held=11`, the precedence of the spec
demands TIME_STOP, but the code in src/alert.py classifies the position as
healthy: its per-position branch only tests the stop and target levels and
never compares `days_held` with `max_hold_days`. -/
theorem alert_no_time_stop :
    alertEvaluate ⟨2/100, 7/100, 10⟩ 100 102 (some 11) = ExitStatus.HEALTHY ∧
    exitEvaluateSpec ⟨2/100, 7/100, 10⟩ 100 102 (some 11) = ExitStatus.TIME_STOP := by
  constructor <;> norm_num [alertEvaluate, exitEvaluateSpec, SimpleExitRules.calculate_exits]

/-- A `w`-window rolling mean agrees with the trailing-window mean of the claim at
every in-range index, for positive `w`. -/
theorem rollingMean_eq_windowMeanSpec (w : Nat) (hw : 0 < w) (xs : List ℚ)
    (i : Nat) (h : i < xs.length) :
    rollingMean w xs i = windowMeanSpec w xs i := by
  unfold rollingMean windowMeanSpec
  by_cases hwi : w ≤ i + 1
  · have hlen : ((xs.take (i + 1)).drop (i + 1 - w)).length = w := by
      simp only [List.length_drop, List.length_take]
      omega
    rw [if_neg (by omega), if_pos ⟨hwi, h⟩, List.drop_take]
    have : i + 1 - (i + 1 - w) = w := by omega
    rw [this]
  · have hlen : ((xs.take (i + 1)).drop (i + 1 - w)).length = i + 1 := by
      simp only [List.length_drop, List.length_take]
      omega
    rw [if_pos (by omega), if_neg (by omega)]

/-- C8: `prepare` computes, at every in-range index, SMA20 and SMA50 of the
closes and the 20-bar mean of the volumes as trailing-window means over the
bars `[i-W+1, i]`, defined only when `W` bars exist at or before `i`; in
particular a series shorter than `W` has the `W`-window average undefined at
every index. -/
theorem prepare_window_means (bars : List Bar) (i : Nat) (h : i < bars.length) :
    ∃ b, (PullbackUptrendSetup.prepare bars)[i]? = some b ∧
      b.sma20 = windowMeanSpec 20 (bars.map (·.close)) i ∧
      b.sma50 = windowMeanSpec 50 (bars.map (·.close)) i ∧
      b.volsma20 = windowMeanSpec 20 (bars.map (·.volume)) i ∧
      (bars.length < 20 → b.sma20 = none ∧ b.volsma20 = none) ∧
      (bars.length < 50 → b.sma50 = none) := by
  have hmap : ∀ (f : Bar → ℚ), (bars.map f).length = bars.length := by
    intro f; simp
  rcases hb : bars[i]? with _ | b
  · rw [List.getElem?_eq_none_iff] at hb; omega
  · have hb2 : (PullbackUptrendSetup.prepare bars)[i]? =
        some ⟨b.date, b.close, b.volume,
          rollingMean 20 (bars.map (·.close)) i,
          rollingMean 50 (bars.map (·.close)) i,
          rollingMean 20 (bars.map (·.volume)) i⟩ := by
      rw [PullbackUptrendSetup.prepare, List.getElem?_mapIdx, hb]; rfl
    refine ⟨_, hb2, ?_, ?_, ?_, ?_, ?_⟩
    · exact rollingMean_eq_windowMeanSpec 20 (by omega) _ i (by rw [hmap]; omega)
    · exact rollingMean_eq_windowMeanSpec 50 (by omega) _ i (by rw [hmap]; omega)
    · exact rollingMean_eq_windowMeanSpec 20 (by omega) _ i (by rw [hmap]; omega)
    · intro hshort
      constructor
      · show rollingMean 20 (bars.map (·.close)) i = none
        rw [rollingMean_eq_windowMeanSpec 20 (by omega) _ i (by rw [hmap]; omega),
          windowMeanSpec, if_neg (by rw [hmap]; omega)]
      · show rollingMean 20 (bars.map (·.volume)) i = none
        rw [rollingMean_eq_windowMeanSpec 20 (by omega) _ i (by rw [hmap]; omega),
          windowMeanSpec, if_neg (by rw [hmap]; omega)]
    · intro hshort
      rw [rollingMean_eq_windowMeanSpec 50 (by omega) _ i (by rw [hmap]; omega),
        windowMeanSpec, if_neg (by rw [hmap]; omega)]

/-- C8 witness: a concrete one-bar series, evaluated at index 0. -/
theorem prepare_window_means_witness :
    0 < ([⟨0, 1, 1⟩] : List Bar).length ∧
    (∃ b, (PullbackUptrendSetup.prepare [⟨0, 1, 1⟩])[0]? = some b ∧
      b.sma20 = windowMeanSpec 20 (([⟨0, 1, 1⟩] : List Bar).map (·.close)) 0 ∧
      b.sma50 = windowMeanSpec 50 (([⟨0, 1, 1⟩] : List Bar).map (·.close)) 0 ∧
      b.volsma20 = windowMeanSpec 20 (([⟨0, 1, 1⟩] : List Bar).map (·.volume)) 0 ∧
      (([⟨0, 1, 1⟩] : List Bar).length < 20 → b.sma20 = none ∧ b.volsma20 = none) ∧
      (([⟨0, 1, 1⟩] : List Bar).length < 50 → b.sma50 = none)) :=
  ⟨by decide, prepare_window_means [⟨0, 1, 1⟩] 0 (by decide)⟩

/-- C7: at every index `t`, the output of the detector equals the conjunction
Trend(t) AND Pullback(t-1) AND Reclaim(t) AND (Quiet-pullback(t-1) when volume
filtering is enabled), where a conjunct whose operands are undefined (missing
indicator, or no previous bar at `t = 0`) counts as false; out-of-range
indices read as false. -/
theorem apply_eq_signalSpec (pct : ℚ) (uv : Bool) (l : List IndBar) (t : Nat) :
    (PullbackUptrendSetup.apply pct uv l).getD t false = signalSpec pct uv l t := by
  rw [List.getD_eq_getElem?_getD, PullbackUptrendSetup.apply, List.getElem?_mapIdx]
  rcases hb : l[t]? with _ | b
  · simp [signalSpec, trendAt, hb]
  · have ht : t < l.length := by
      by_contra hc
      rw [List.getElem?_eq_none (by omega)] at hb
      exact Option.noConfusion hb
    by_cases h0 : t = 0
    · subst h0
      cases uv <;>
        simp [signalSpec, trendAt, pullbackAt, reclaimAt, quietAt, hb, optLt, optLe]
    · rcases hp : l[t - 1]? with _ | p
      · rw [List.getElem?_eq_none_iff] at hp; omega
      · rcases hs50 : b.sma50 with _ | s50 <;> rcases hs20 : b.sma20 with _ | s20 <;>
          rcases hps : p.sma20 with _ | ps <;> rcases hpv : p.volsma20 with _ | pv <;>
            cases uv <;>
              simp [signalSpec, trendAt, pullbackAt, reclaimAt, quietAt, hb, hp,
                h0, hs50, hs20, hps, hpv, optLt, optLe, Bool.and_assoc]

/-- C3: the market filter fails open — an empty benchmark frame or an all-NaN
close column yields `(True, None, None, None)` — and otherwise its `ok`
component is true exactly when the 200-bar SMA at the last row is defined and
the last close is present and strictly greater than it. -/
theorem market_ok_claim (spy : List (Nat × Option ℚ)) :
    ((spy.isEmpty || spy.all fun b => b.2.isNone) = true →
      SetupScanner.market_ok spy = (true, none, none, none)) ∧
    ((spy.isEmpty || spy.all fun b => b.2.isNone) = false →
      ((SetupScanner.market_ok spy).1 = true ↔
        ∃ s c, rollingMeanOpt 200 (spy.map (·.2)) (spy.length - 1) = some s ∧
          (spy.getLast?).bind (·.2) = some c ∧ s < c)) := by
  constructor
  · intro h
    rw [SetupScanner.market_ok, if_pos h]
  · intro h
    rcases hs : rollingMeanOpt 200 (spy.map (·.2)) (spy.length - 1) with _ | s <;>
      rcases hc : (spy.getLast?).bind (·.2) with _ | c <;>
        simp [SetupScanner.market_ok, h, hs, hc]

/-- C3 witness: the empty benchmark frame fails open, and a one-bar frame
(SMA200 undefined) yields `ok = False`. -/
theorem market_ok_claim_witness :
    SetupScanner.market_ok [] = (true, none, none, none) ∧
    (SetupScanner.market_ok [(0, some 5)]).1 = false := by
  constructor
  · exact (market_ok_claim []).1 (by decide)
  · cases hok : (SetupScanner.market_ok [(0, some 5)]).1
    · rfl
    · obtain ⟨s, c, hs, hc, hlt⟩ :=
        ((market_ok_claim [(0, some 5)]).2 (by decide)).mp hok
      rw [show rollingMeanOpt 200 (([(0, some 5)] :
          List (Nat × Option ℚ)).map (·.2)) (([(0, some 5)] :
          List (Nat × Option ℚ)).length - 1) = none from rfl] at hs
      exact Option.noConfusion hs

/-- C2 counterexample: with the market filter off, a provider exception on a
single ticker makes the whole scan raise — ticker "B" (whose download works
and would simply be skipped for lack of data) is lost with it, so a per-ticker
failure does abort the scan. -/
theorem scan_aborts_on_provider_error :
    SetupScanner.scan ⟨2/100, true, false⟩ badProvider ["A", "B"] none =
      Except.error "boom" := by
  rfl

/-- C2 amended: when no download raises, a ticker whose frame is empty or
shorter than 60 bars is dropped and the loop continues over the remaining
tickers; any frame shorter than 60 bars is skipped.  (A raised provider error,
by contrast, is not caught: see the counterexample.) -/
theorem scanRows_skips_short_series (pct : ℚ) (uv : Bool)
    (provider : String → Except String (List Bar)) (tickers : List String)
    (h : ∀ t ∈ tickers, (provider t).isOk = true) :
    scanRows pct uv provider tickers =
      Except.ok (tickers.filterMap fun t =>
        match provider t with
        | .ok data => processTicker pct uv t data
        | .error _ => none) ∧
    ∀ t data, data.length < 60 → processTicker pct uv t data = none := by
  constructor
  · induction tickers with
    | nil => rfl
    | cons t ts ih =>
      have ht := h t (by simp)
      have hts : ∀ x ∈ ts, (provider x).isOk = true := fun x hx => h x (by simp [hx])
      rcases hp : provider t with e | data
      · rw [hp] at ht; simp [Except.isOk, Except.toBool] at ht
      · rw [List.filterMap_cons]
        rw [scanRows, hp, ih hts]
        rcases hpt : processTicker pct uv t data with _ | r <;> simp [hpt]
  · intro t data hlen
    rw [processTicker, if_pos (by simp [hlen])]

/-- C2 witness: a provider that always returns an empty frame lets the scan
loop run to completion, dropping every ticker. -/
theorem scanRows_skips_short_series_witness :
    (∀ t ∈ ["A", "B"], ((fun (_ : String) =>
      (Except.ok [] : Except String (List Bar))) t).isOk = true) ∧
    (scanRows (2/100) true (fun _ => Except.ok []) ["A", "B"] =
      Except.ok (["A", "B"].filterMap fun t =>
        match (fun (_ : String) => (Except.ok [] : Except String (List Bar))) t with
        | .ok data => processTicker (2/100) true t data
        | .error _ => none) ∧
    ∀ t data, data.length < 60 → processTicker (2/100) true t data = none) :=
  ⟨by decide,
   scanRows_skips_short_series (2/100) true (fun _ => Except.ok []) ["A", "B"]
     (by decide)⟩

/-- C10: `max_tickers = 0` is falsy in the slice guard, so it scans the whole
list exactly like `None`; a strictly positive bound scans the first
`max_tickers` entries. -/
theorem scan_max_tickers (cfg : ScanConfig)
    (provider : String → Except String (List Bar)) (tickers : List String)
    (m : Int) :
    SetupScanner.scan cfg provider tickers (some 0) =
      SetupScanner.scan cfg provider tickers none ∧
    (0 < m → SetupScanner.scan cfg provider tickers (some m) =
      SetupScanner.scan cfg provider (tickers.take m.toNat) none) := by
  constructor
  · have h0 : tickersToScan tickers (some 0) = tickersToScan tickers none := by
      simp [tickersToScan]
    rw [SetupScanner.scan, SetupScanner.scan, h0]
  · intro hm
    have h1 : tickersToScan tickers (some m) =
        tickersToScan (tickers.take m.toNat) none := by
      rw [tickersToScan, tickersToScan, if_neg (by omega), pySliceTo,
        if_pos (by omega)]
    rw [SetupScanner.scan, SetupScanner.scan, h1]

/-- C10 witness: a two-ticker universe with bound 0 and bound 1. -/
theorem scan_max_tickers_witness :
    SetupScanner.scan ⟨1, true, false⟩ (fun _ => Except.ok []) ["A", "B"]
        (some 0) =
      SetupScanner.scan ⟨1, true, false⟩ (fun _ => Except.ok []) ["A", "B"]
        none ∧
    SetupScanner.scan ⟨1, true, false⟩ (fun _ => Except.ok []) ["A", "B"]
        (some 1) =
      SetupScanner.scan ⟨1, true, false⟩ (fun _ => Except.ok [])
        (["A", "B"].take (1 : Int).toNat) none :=
  ⟨(scan_max_tickers ⟨1, true, false⟩ (fun _ => Except.ok []) ["A", "B"] 1).1,
   (scan_max_tickers ⟨1, true, false⟩ (fun _ => Except.ok []) ["A", "B"] 1).2
     (by decide)⟩

section

attribute [local semireducible] Rat.add Rat.sub Rat.mul Rat.inv

/-- C4 counterexample: 61 stock closes `1, 2, ..., 2, 3` against a constant
benchmark.  The code reads `iloc[-60]` — the close 60 bars back counting the
last bar, here 2 — and scores 50.0, while the formula of the claim
`close[last] / close[last - window] - 1` reads the close at index
`last - 60`, here 1, and scores 200.0. -/
theorem relative_strength_counterexample :
    calculate_relative_strength (Except.ok sC) (Except.ok pC) 60 ≠
      relStrengthClaim (Except.ok sC) (Except.ok pC) 60 := by
  decide

end

/-- C4 amended: the score is `(ticker_return - benchmark_return) * 100` with
each return computed as `close[last] / close[length - window] - 1` (the close
`window` bars back counting inclusively, Python `iloc[-window]`), and it is
0.0 whenever a download raises or either series is empty or shorter than the
window; no error propagates. -/
theorem relative_strength_amended (stock spy : Except String (List ℚ)) :
    calculate_relative_strength stock spy 60 = relStrengthAmended stock spy 60 := by
  rcases stock with e | s
  · rfl
  · rcases spy with e | p
    · rfl
    · rw [calculate_relative_strength, relStrengthAmended]
      by_cases h1 : (s.isEmpty || p.isEmpty || decide (s.length < 60)) = true
      · rw [if_pos h1, if_pos (by revert h1; simp; tauto)]
      · by_cases h2 : p.length < 60
        · rw [if_neg h1, if_pos (by simp [h2]), if_pos (by revert h1; simp; tauto)]
        · rw [if_neg h1, if_neg (by simpa using h2),
            if_neg (by revert h1 h2; simp; tauto)]

/-- The stable sort leaves each key class exactly as it was. -/
theorem insertionSort_keyGe_filter (rows : List SignalRow) (k : Nat × Nat) :
    (rows.insertionSort rowLE).filter (fun r => rowKey r = k) =
      rows.filter (fun r => rowKey r = k) := by
  have hpair : List.Pairwise rowLE (rows.filter fun r => rowKey r = k) := by
    refine List.pairwise_of_forall_mem_list fun a ha b hb => ?_
    have ha2 := (List.mem_filter.mp ha).2
    have hb2 := (List.mem_filter.mp hb).2
    simp only [decide_eq_true_eq] at ha2 hb2
    simp [rowLE, keyGe, ha2, hb2]
  have hsub : (rows.filter fun r => rowKey r = k).Sublist
      (rows.insertionSort rowLE) :=
    List.sublist_insertionSort hpair (List.filter_sublist rows)
  have hperm : ((rows.insertionSort rowLE).filter fun r => rowKey r = k).Perm
      (rows.filter fun r => rowKey r = k) :=
    (List.perm_insertionSort rowLE rows).filter _
  have hsub2 : (rows.filter fun r => rowKey r = k).Sublist
      ((rows.insertionSort rowLE).filter fun r => rowKey r = k) := by
    have h3 := hsub.filter (fun r => decide (rowKey r = k))
    rwa [List.filter_eq_self.mpr
      (fun a ha => (List.mem_filter.mp ha).2)] at h3
  exact (hsub2.eq_of_length hperm.length_eq.symm).symm

/-- A row is always built for the ticker the loop iteration is processing. -/
theorem processTicker_ticker (pct : ℚ) (uv : Bool) (t : String)
    (data : List Bar) (r : SignalRow)
    (h : processTicker pct uv t data = some r) : r.ticker = t := by
  rw [processTicker] at h
  by_cases hc : (data.isEmpty || decide (data.length < 60)) = true
  · rw [if_pos hc] at h; cases h
  · rw [if_neg hc] at h
    cases h
    rfl

/-- Rows are produced in the order the tickers are scanned: the emitted
tickers form a sublist of the scanned universe. -/
theorem scanRows_map_ticker_sublist (pct : ℚ) (uv : Bool)
    (provider : String → Except String (List Bar)) :
    ∀ ts rows, scanRows pct uv provider ts = Except.ok rows →
      (rows.map (·.ticker)).Sublist ts := by
  intro ts
  induction ts with
  | nil =>
    intro rows h
    rw [scanRows] at h
    cases h
    simp
  | cons t ts ih =>
    intro rows h
    rw [scanRows] at h
    rcases hp : provider t with e | data
    · rw [hp] at h; cases h
    · rw [hp] at h
      dsimp only at h
      rcases hr : scanRows pct uv provider ts with e | rest
      · rw [hr] at h; cases h
      · rw [hr] at h
        dsimp only at h
        rcases hpt : processTicker pct uv t data with _ | r
        · rw [hpt] at h
          cases h
          exact (ih _ hr).cons t
        · rw [hpt] at h
          cases h
          rw [List.map_cons, processTicker_ticker pct uv t data r hpt]
          exact (ih rest hr).cons₂ t

/-- C5: every successful scan output is pairwise ordered by the descending
lexicographic key (has_signal_today, signals_in_lookback), and whenever rows
were actually produced (the market gate passed), each key class of the output
is exactly the corresponding key class of the accumulated rows — which are in
scanned-universe order — so exact ties keep the input ticker order. -/
theorem scan_sorted_stable (cfg : ScanConfig)
    (provider : String → Except String (List Bar)) (tickers : List String)
    (mt : Option Int) (out : List SignalRow)
    (h : SetupScanner.scan cfg provider tickers mt = Except.ok out) :
    List.Pairwise (fun a b => keyGe a b = true) out ∧
    (∀ rows, scanRows cfg.pullback_pct cfg.use_volume provider
        (tickersToScan tickers mt) = Except.ok rows →
      marketGate cfg provider = Except.ok true →
      (∀ k, out.filter (fun r => rowKey r = k) =
        rows.filter (fun r => rowKey r = k)) ∧
      (rows.map (·.ticker)).Sublist (tickersToScan tickers mt)) := by
  rw [SetupScanner.scan] at h
  rcases hg : marketGate cfg provider with e | okb
  · rw [hg] at h; cases h
  · rw [hg] at h
    cases okb
    · cases h
      refine ⟨List.Pairwise.nil, fun rows hr hgate => ?_⟩
      simp at hgate
    · rcases hr0 : scanRows cfg.pullback_pct cfg.use_volume provider
          (tickersToScan tickers mt) with e | rows0
      · rw [hr0] at h; cases h
      · rw [hr0] at h
        cases h
        refine ⟨List.sorted_insertionSort rowLE rows0,
          fun rows hr _ => ?_⟩
        cases hr
        exact ⟨fun k => insertionSort_keyGe_filter rows0 k,
          scanRows_map_ticker_sublist cfg.pullback_pct cfg.use_volume provider
            _ rows0 hr0⟩

section

attribute [local semireducible] Rat.add Rat.sub Rat.mul Rat.inv

set_option maxRecDepth 40000 in
/-- C5 witness: two tickers whose frames are the same 60 flat bars produce two
records with equal keys; the scan output keeps them in universe order. -/
theorem scan_sorted_stable_witness :
    SetupScanner.scan ⟨2/100, true, false⟩ (fun _ => Except.ok constBars)
        ["A", "B"] none = Except.ok [wRow "A", wRow "B"] ∧
    (List.Pairwise (fun a b => keyGe a b = true) [wRow "A", wRow "B"] ∧
      (∀ rows, scanRows (⟨2/100, true, false⟩ : ScanConfig).pullback_pct
          (⟨2/100, true, false⟩ : ScanConfig).use_volume
          (fun _ => Except.ok constBars)
          (tickersToScan ["A", "B"] none) = Except.ok rows →
        marketGate ⟨2/100, true, false⟩ (fun _ => Except.ok constBars) =
          Except.ok true →
        (∀ k, ([wRow "A", wRow "B"]).filter (fun r => rowKey r = k) =
          rows.filter (fun r => rowKey r = k)) ∧
        (rows.map (·.ticker)).Sublist (tickersToScan ["A", "B"] none))) :=
  ⟨by rfl,
   scan_sorted_stable ⟨2/100, true, false⟩ (fun _ => Except.ok constBars)
     ["A", "B"] none [wRow "A", wRow "B"] (by rfl)⟩

end

/-- If the last signal flag of the column is set, the last emitted signal date
is the last date of the series, and the count of set flags is positive. -/
theorem sigDates_getLast (dates : List Nat) (sig : List Bool)
    (hlen : dates.length = sig.length) (hlast : sig.getLast? = some true) :
    ((dates.zip sig).filterMap fun p =>
      if p.2 then some p.1 else none).getLast? = dates.getLast? ∧
    1 ≤ sig.countP id := by
  obtain ⟨s, rfl⟩ := List.getLast?_eq_some_iff.mp hlast
  have hne : dates ≠ [] := by
    intro h
    subst h
    simp at hlen
  obtain ⟨dl, hdl⟩ : ∃ dl, dates.getLast? = some dl := by
    rcases hd : dates.getLast? with _ | dl
    · exact absurd (List.getLast?_eq_none_iff.mp hd) hne
    · exact ⟨dl, rfl⟩
  obtain ⟨d, rfl⟩ := List.getLast?_eq_some_iff.mp hdl
  have hlen2 : d.length = s.length := by
    simp at hlen
    omega
  rw [List.zip_append hlen2, List.filterMap_append]
  constructor
  · simp
  · rw [List.countP_append]
    simp [List.countP_cons]

/-- The last emitted signal date is missing exactly when no flag is set. -/
theorem sigDates_none_iff (dates : List Nat) (sig : List Bool)
    (hlen : dates.length = sig.length) :
    (((dates.zip sig).filterMap fun p =>
      if p.2 then some p.1 else none).getLast? = none ↔ sig.countP id = 0) := by
  rw [List.getLast?_eq_none_iff, List.filterMap_eq_nil_iff]
  have hmap : (dates.zip sig).map Prod.snd = sig :=
    List.map_snd_zip dates sig (le_of_eq hlen.symm)
  have hcount : sig.countP id = (dates.zip sig).countP fun p => p.2 := by
    conv_lhs => rw [← hmap]
    rw [List.countP_map]
    rfl
  rw [hcount, List.countP_eq_zero]
  constructor
  · intro hall p hp
    have h2 := hall p hp
    intro hcontra
    rw [if_pos hcontra] at h2
    cases h2
  · intro hall p hp
    have h2 := hall p hp
    rw [if_neg h2]

/-- C9: in every record the scanner emits, a set today-flag forces the most
recent signal date to equal the date of the last bar and the lookback count to be
positive; and the most recent signal date is missing exactly when the lookback
count is zero. -/
theorem signalRow_invariants (pct : ℚ) (uv : Bool) (t : String)
    (data : List Bar) (r : SignalRow)
    (h : processTicker pct uv t data = some r) :
    (r.has_signal_today = true →
      r.most_recent_signal_date = some r.last_date ∧
        1 ≤ r.signals_in_lookback) ∧
    (r.most_recent_signal_date = none ↔ r.signals_in_lookback = 0) := by
  rw [processTicker] at h
  by_cases hc : (data.isEmpty || decide (data.length < 60)) = true
  · rw [if_pos hc] at h; cases h
  · rw [if_neg hc] at h
    cases h
    dsimp only
    have hlen : (data.map (·.date)).length =
        (PullbackUptrendSetup.apply pct uv
          (PullbackUptrendSetup.prepare data)).length := by
      simp [PullbackUptrendSetup.apply, PullbackUptrendSetup.prepare,
        List.length_mapIdx]
    constructor
    · intro hsig
      have hlast : (PullbackUptrendSetup.apply pct uv
          (PullbackUptrendSetup.prepare data)).getLast? = some true := by
        rcases hgl : (PullbackUptrendSetup.apply pct uv
            (PullbackUptrendSetup.prepare data)).getLast? with _ | b
        · rw [hgl] at hsig; cases hsig
        · rw [hgl] at hsig
          cases b
          · cases hsig
          · rfl
      obtain ⟨h1, h2⟩ := sigDates_getLast (data.map (·.date))
        (PullbackUptrendSetup.apply pct uv (PullbackUptrendSetup.prepare data))
        hlen hlast
      rcases hD : (data.map (·.date)).getLast? with _ | dl
      · rw [List.getLast?_eq_none_iff] at hD
        obtain ⟨ys, hys⟩ := List.getLast?_eq_some_iff.mp hlast
        rw [hD, hys] at hlen
        simp at hlen
      · rw [hD] at h1
        rw [hD]
        exact ⟨h1, h2⟩
    · exact sigDates_none_iff (data.map (·.date))
        (PullbackUptrendSetup.apply pct uv (PullbackUptrendSetup.prepare data))
        hlen

section

attribute [local semireducible] Rat.add Rat.sub Rat.mul Rat.inv

set_option maxRecDepth 40000 in
/-- C9 witness: the record produced for a concrete 60-bar flat series. -/
theorem signalRow_invariants_witness :
    processTicker (2/100) true "A" constBars = some (wRow "A") ∧
    (((wRow "A").has_signal_today = true →
      (wRow "A").most_recent_signal_date = some (wRow "A").last_date ∧
        1 ≤ (wRow "A").signals_in_lookback) ∧
    ((wRow "A").most_recent_signal_date = none ↔
      (wRow "A").signals_in_lookback = 0)) :=
  ⟨by rfl,
   signalRow_invariants (2/100) true "A" constBars (wRow "A") (by rfl)⟩

end
